import Mathlib

/-
Verification of the flight booking transaction engine of this repository
(flight_booking/flights/services/pricing.py, flight_booking/bookings/services/booking.py,
flight_booking/bookings/models.py, flight_booking/flights/models.py).

Machine integers of the source are modelled as Int/Nat; Python Decimal values and
timestamps as rationals (all Decimal arithmetic performed by the source stays well
inside the default 28-digit precision, so it is exact); the injectable inputs the
spec requires (wall clock, demand level, payment outcome, generated reservation
code) are explicit parameters; fallible operations return Except.
-/

namespace FlightBooking

/-- Demand levels drawn by PricingEngine.calculate_demand_factor
(the weighted random draw itself is injected as a parameter throughout). -/
inductive DemandLevel
  | LOW
  | MEDIUM
  | HIGH
deriving DecidableEq, Repr

/-- Factor assigned to each demand level by PricingEngine.calculate_demand_factor:
LOW 1.0, MEDIUM 1.15, HIGH 1.3. -/
def demandFactor : DemandLevel → ℚ
  | .LOW => 1
  | .MEDIUM => 23 / 20
  | .HIGH => 13 / 10

/-- Embedding of PricingEngine.calculate_seat_factor: tiered factor on the
occupancy rate, with an explicit guard returning 1.0 when total_seats is 0. -/
def calculate_seat_factor (seats_available total_seats : ℤ) : ℚ :=
  if total_seats = 0 then 1
  else
    let occupancy_rate : ℚ := ((total_seats : ℚ) - (seats_available : ℚ)) / (total_seats : ℚ)
    if 4 / 5 ≤ occupancy_rate then 3 / 2
    else if 1 / 2 ≤ occupancy_rate then 6 / 5
    else if 3 / 10 ≤ occupancy_rate then 11 / 10
    else 19 / 20

/-- Embedding of PricingEngine.calculate_time_factor, parametrised by the number of
hours left until departure (departure_time minus now, in hours). -/
def calculate_time_factor (hours_left : ℚ) : ℚ :=
  if hours_left < 0 then 0
  else if hours_left < 24 then 7 / 5
  else if hours_left < 72 then 6 / 5
  else if hours_left < 168 then 11 / 10
  else 1

/-- Rounding of a rational to the nearest integer with ties going to the even
integer: the semantics of Python round on Decimal values (Decimal quantize under
the default ROUND_HALF_EVEN context), which the source applies in
round(dynamic_fare, 2). -/
def roundHalfEvenInt (q : ℚ) : ℤ :=
  let n := ⌊q⌋
  if q - n < 1 / 2 then n
  else if 1 / 2 < q - n then n + 1
  else if n % 2 = 0 then n else n + 1

/-- Python round(x, d) on Decimal values: scale by 10 ^ d, round half-to-even,
unscale. -/
def pyRound (d : ℕ) (q : ℚ) : ℚ :=
  ((roundHalfEvenInt (q * (10 : ℚ) ^ d) : ℚ)) / (10 : ℚ) ^ d

/-- Modelled from the spec: round half-up to the nearest integer, the
"standard (not banker's) rounding" the spec prescribes.  Present only for
comparison against the rounding the code performs. -/
def roundHalfUpInt (q : ℚ) : ℤ := ⌊q + 1 / 2⌋

/-- Modelled from the spec: standard half-up rounding to d decimal places,
for comparison against pyRound. -/
def halfUpRound (d : ℕ) (q : ℚ) : ℚ :=
  ((roundHalfUpInt (q * (10 : ℚ) ^ d) : ℚ)) / (10 : ℚ) ^ d

/-- Status of a Flight row (flights/models.py, STATUS_CHOICES). -/
inductive FlightStatus
  | SCHEDULED
  | DELAYED
  | CANCELLED
deriving DecidableEq, Repr

/-- Embedding of the Flight model (flights/models.py).  Timestamps are rational
numbers of seconds; base_fare is the Decimal base fare as a rational. -/
structure Flight where
  id : ℕ
  flight_no : String
  originId : ℕ
  destinationId : ℕ
  departure_time : ℚ
  arrival_time : ℚ
  base_fare : ℚ
  total_seats : ℤ
  seats_available : ℤ
  status : FlightStatus
deriving DecidableEq, Repr

/-- Embedding of the Flight.occupancy_rate property. -/
def Flight.occupancy_rate (f : Flight) : ℚ :=
  if 0 < f.total_seats then
    ((f.total_seats : ℚ) - (f.seats_available : ℚ)) / (f.total_seats : ℚ)
  else 0

/-- Embedding of the Flight.is_available property: scheduled, seats left, and
departure strictly in the future. -/
def Flight.is_available (f : Flight) (now : ℚ) : Bool :=
  decide (f.status = .SCHEDULED) && decide (0 < f.seats_available) &&
    decide (now < f.departure_time)

/-- Embedding of Flight.full_clean as run by Flight.save: the field validators
(base_fare nonnegative, total_seats between 1 and 500, seats_available
nonnegative) together with Flight.clean (departure before arrival, available
seats not exceeding total seats, distinct origin and destination).  Django
raises ValidationError when any check fails, which aborts and rolls back the
enclosing transaction. -/
def Flight.full_clean_ok (f : Flight) : Bool :=
  decide (0 ≤ f.base_fare) && decide (1 ≤ f.total_seats) && decide (f.total_seats ≤ 500) &&
    decide (0 ≤ f.seats_available) && decide (f.departure_time < f.arrival_time) &&
    decide (f.seats_available ≤ f.total_seats) && decide (f.originId ≠ f.destinationId)

/-- The pricing_details record assembled by PricingEngine.calculate_dynamic_fare. -/
structure FareQuote where
  base_fare : ℚ
  dynamic_fare : ℚ
  seat_factor : ℚ
  time_factor : ℚ
  demand_factor : ℚ
  demand_level : DemandLevel
  occupancy_rate : ℚ
  seats_remaining : ℤ
  time_to_departure_hours : ℤ
  price_increase_percentage : ℚ
deriving DecidableEq, Repr

/-- A FareHistory row (flights/models.py) as written by the pricing engine. -/
structure FareHistoryRecord where
  flightId : ℕ
  calculated_fare : ℚ
  seats_remaining : ℤ
  demand_level : DemandLevel
  time_to_departure : ℤ
  seat_factor : ℚ
  time_factor : ℚ
  demand_factor : ℚ
deriving DecidableEq, Repr

/-- The unrounded product base_fare x seat_factor x time_factor x demand_factor
computed inside PricingEngine.calculate_dynamic_fare. -/
def raw_fare (f : Flight) (demand : DemandLevel) (now : ℚ) : ℚ :=
  f.base_fare * calculate_seat_factor f.seats_available f.total_seats *
    calculate_time_factor ((f.departure_time - now) / 3600) * demandFactor demand

/-- Embedding of PricingEngine.calculate_dynamic_fare.  The demand level and the
wall clock are injected.  Returns the pricing_details record together with the
FareHistory row the engine appends (save_history defaults to True at every call
site in the booking service).  Returns none exactly when base_fare is zero, in
which case the price_increase_percentage division raises DivisionByZero in the
source before any FareHistory row is written. -/
def calculate_dynamic_fare (f : Flight) (demand : DemandLevel) (now : ℚ) :
    Option (FareQuote × FareHistoryRecord) :=
  if f.base_fare = 0 then none
  else
    let sf := calculate_seat_factor f.seats_available f.total_seats
    let tf := calculate_time_factor ((f.departure_time - now) / 3600)
    let df := demandFactor demand
    let final_fare := pyRound 2 (f.base_fare * sf * tf * df)
    let ttd : ℤ := ⌊max 0 ((f.departure_time - now) / 3600)⌋
    some
      (⟨f.base_fare, final_fare, sf, tf, df, demand, f.occupancy_rate,
          f.seats_available, ttd,
          pyRound 1 ((final_fare - f.base_fare) / f.base_fare * 100)⟩,
        ⟨f.id, final_fare, f.seats_available, demand, ttd, sf, tf, df⟩)

/-- Alphabet string.ascii_uppercase from which Booking.generate_pnr draws its
two letters. -/
def ascii_uppercase : List Char := "ABCDEFGHIJKLMNOPQRSTUVWXYZ".toList

/-- Alphabet string.digits from which Booking.generate_pnr draws its four
digits. -/
def digitChars : List Char := "0123456789".toList

/-- Letter selected by one call of random.choices over string.ascii_uppercase. -/
def pickUpper (i : Fin 26) : Char :=
  ascii_uppercase.get ⟨i.1, Nat.lt_of_lt_of_le i.2 (by decide)⟩

/-- Digit selected by one call of random.choices over string.digits. -/
def pickDigit (i : Fin 10) : Char :=
  digitChars.get ⟨i.1, Nat.lt_of_lt_of_le i.2 (by decide)⟩

/-- Embedding of Booking.generate_pnr (bookings/models.py): two uppercase
letters followed by four digits; the six random draws are injected. -/
def generate_pnr (l1 l2 : Fin 26) (d1 d2 d3 d4 : Fin 10) : String :=
  String.mk [pickUpper l1, pickUpper l2, pickDigit d1, pickDigit d2, pickDigit d3, pickDigit d4]

/-- Format check for a reservation code: exactly two uppercase letters followed
by exactly four digits. -/
def isPnrFormat (s : String) : Bool :=
  match s.toList with
  | [a, b, c, d, e, f] =>
    decide (a ∈ ascii_uppercase) && decide (b ∈ ascii_uppercase) && decide (c ∈ digitChars) &&
      decide (d ∈ digitChars) && decide (e ∈ digitChars) && decide (f ∈ digitChars)
  | _ => false

/-- Big-step semantics of the retry-until-unique loop in Booking.save
(bookings/models.py): gen n is the candidate produced by the n-th call of
generate_pnr, and taken is the database membership test
Booking.objects.filter(pnr=candidate).exists().  pnrSaveLoop gen taken n r
holds exactly when the loop, starting from the n-th candidate, terminates and
assigns the code r; the loop has no other exit, in particular no error
outcome. -/
inductive pnrSaveLoop (gen : ℕ → String) (taken : String → Bool) : ℕ → String → Prop
  | found (n : ℕ) : taken (gen n) = false → pnrSaveLoop gen taken n (gen n)
  | collide (n : ℕ) (r : String) : taken (gen n) = true → pnrSaveLoop gen taken (n + 1) r →
      pnrSaveLoop gen taken n r

/-- Termination of the Booking.save retry loop from its first candidate. -/
def pnrLoopTerminates (gen : ℕ → String) (taken : String → Bool) : Prop :=
  ∃ r, pnrSaveLoop gen taken 0 r

/-- Booking status choices (bookings/models.py, STATUS_CHOICES). -/
inductive BookingStatus
  | PENDING
  | CONFIRMED
  | CANCELLED
deriving DecidableEq, Repr

/-- Payment status choices on a Booking row (PAYMENT_STATUS_CHOICES). -/
inductive PayStatus
  | SUCCESS
  | FAILED
  | PENDING
deriving DecidableEq, Repr

/-- Transaction status choices on a PaymentTransaction row. -/
inductive TxStatus
  | INITIATED
  | SUCCESS
  | FAILED
  | REFUNDED
  | PENDING
deriving DecidableEq, Repr

/-- Embedding of the Booking model (bookings/models.py). -/
structure Booking where
  pnr : String
  flightId : ℕ
  passenger_name : String
  passenger_age : ℤ
  passenger_phone : String
  passenger_email : String
  seat_number : String
  booking_status : BookingStatus
  final_fare : ℚ
  payment_status : PayStatus
  special_requests : String
deriving DecidableEq, Repr

/-- Embedding of the Booking.can_be_cancelled property: the booking is
CONFIRMED and departure is more than 7200 seconds away. -/
def Booking.can_be_cancelled (b : Booking) (f : Flight) (now : ℚ) : Bool :=
  decide (b.booking_status = .CONFIRMED) && decide (7200 < f.departure_time - now)

/-- Embedding of a PaymentTransaction row; the booking foreign key, carried as
the booked PNR.  The ForeignKey in bookings/models.py declares no null=True, so
the column is NOT NULL and every persisted row references a booking: the
booking=None insert attempted by create_booking can never commit.  The random
gateway transaction id inside gateway_response is abstracted to the response
status string. -/
structure PaymentTransaction where
  bookingPnr : String
  amount : ℚ
  payment_method : String
  status : TxStatus
  gateway_status : String
deriving DecidableEq, Repr

/-- Embedding of a BookingHistory row. -/
structure BookingHistoryEntry where
  bookingPnr : String
  action : String
  description : String
deriving DecidableEq, Repr

/-- Passenger data dictionary passed to BookingService.create_booking. -/
structure Passenger where
  name : String
  age : ℤ
  phone : String
  email : String
  special_requests : String
deriving DecidableEq, Repr

/-- The persistent state the booking service operates on: the flights table and
the bookings, payment_transactions, booking_history and fare_history tables. -/
structure DB where
  flights : List Flight
  bookings : List Booking
  transactions : List PaymentTransaction
  history : List BookingHistoryEntry
  fare_history : List FareHistoryRecord
deriving DecidableEq, Repr

/-- Typed counterparts of the failures the booking service surfaces (all of
them reach the caller wrapped in ValidationError).  integrityError is the
database IntegrityError raised by the INITIATED PaymentTransaction insert in
create_booking: it passes booking=None into a non-nullable foreign key, so the
INSERT violates NOT NULL and aborts every create attempt that reaches it. -/
inductive BookingError
  | flightNotFound
  | flightNotAvailable
  | noSeatsAvailable
  | seatAlreadyTaken
  | integrityError
  | pricingError
  | flightValidationFailed
  | bookingNotFound
  | cancellationWindowClosed
  | missingTransaction
  | duplicatePnr
deriving DecidableEq, Repr

/-- Row update by primary key performed by flight.save on an existing row. -/
def updateFlight (fs : List Flight) (fl : Flight) : List Flight :=
  fs.map fun g => if g.id = fl.id then fl else g

/-- Row update by the unique pnr key performed by booking.save. -/
def updateBooking (bs : List Booking) (b : Booking) : List Booking :=
  bs.map fun x => if x.pnr = b.pnr then b else x

/-- Embedding of BookingService.create_booking.  The transaction.atomic block
of the source either commits every write or rolls all of them back, so the
operation is modelled as Except: error leaves the caller with the unchanged
pre-state.  After validation and pricing, the source executes
PaymentTransaction.objects.create(booking=None, ...); because the booking
foreign key is non-nullable, that INSERT raises IntegrityError, the except
handler wraps it in ValidationError and the whole transaction rolls back.
Everything after that line - payment simulation, booking creation, seat
decrement, history entries - is dead code, so create_booking never returns ok.
The parameters newPnr and paymentOk model the injected randomness that only
this dead code would consume; the result does not depend on them.  The demand
level drawn by the pricing engine and the wall clock (now, in seconds) are
injected as before. -/
def create_booking (db : DB) (flight_id : ℕ) (p : Passenger) (seat_number : String)
    (payment_method : String) (newPnr : String) (paymentOk : Bool) (demand : DemandLevel)
    (now : ℚ) : Except BookingError (DB × Booking) :=
  match db.flights.find? (fun f => f.id = flight_id) with
  | none => .error .flightNotFound
  | some flight =>
    if flight.is_available now = false then .error .flightNotAvailable
    else if flight.seats_available ≤ 0 then .error .noSeatsAvailable
    else if db.bookings.any (fun b =>
        decide (b.flightId = flight.id) && decide (b.seat_number = seat_number) &&
          decide (b.booking_status = .CONFIRMED)) then .error .seatAlreadyTaken
    else
      match calculate_dynamic_fare flight demand now with
      | none => .error .pricingError
      | some _ =>
        .error .integrityError

/-- Embedding of BookingService.cancel_booking.  The initial
Booking.objects.get(pnr=pnr, booking_status=CONFIRMED) raises DoesNotExist when
no row matches and MultipleObjectsReturned when several do; the refund step
reads booking.transactions.first(), the most recent transaction of the booking
(ordering is -created_at), and raises when there is none.  As in
create_booking, the atomic block makes every failure leave the pre-state
unchanged. -/
def cancel_booking (db : DB) (pnr : String) (reason : String) (now : ℚ) :
    Except BookingError DB :=
  match db.bookings.filter (fun b =>
      decide (b.pnr = pnr) && decide (b.booking_status = .CONFIRMED)) with
  | [] => .error .bookingNotFound
  | [b] =>
    match db.flights.find? (fun f => f.id = b.flightId) with
    | none => .error .flightNotFound
    | some flight =>
      if b.can_be_cancelled flight now = false then .error .cancellationWindowClosed
      else
        if Flight.full_clean_ok
            { flight with seats_available := flight.seats_available + 1 } = false then
          .error .flightValidationFailed
        else
          match (db.transactions.filter (fun t => t.bookingPnr = b.pnr)).getLast? with
          | none => .error .missingTransaction
          | some tx =>
            .ok
              { flights := updateFlight db.flights
                  { flight with seats_available := flight.seats_available + 1 },
                bookings := updateBooking db.bookings
                  { b with booking_status := BookingStatus.CANCELLED },
                transactions := db.transactions ++
                  [⟨b.pnr, -b.final_fare, tx.payment_method, .SUCCESS, ""⟩],
                history := db.history ++
                  [⟨b.pnr, "CANCELLED", "Booking cancelled. Reason: " ++ reason⟩],
                fare_history := db.fare_history }
  | _ :: _ :: _ => .error .duplicatePnr

/-- The dictionary returned by BookingService.get_booking_details. -/
structure BookingDetails where
  booking : Booking
  current_pricing : FareQuote
  price_difference : ℚ
  history : List BookingHistoryEntry
  transactions : List PaymentTransaction
  can_cancel : Bool
deriving DecidableEq, Repr

/-- Embedding of BookingService.get_booking_details.  The call into
PricingEngine.calculate_dynamic_fare keeps its save_history=True default, so on
success the returned state carries the appended FareHistory row; there is no
transaction block here and the row is committed immediately. -/
def get_booking_details (db : DB) (pnr : String) (demand : DemandLevel) (now : ℚ) :
    Except BookingError (BookingDetails × DB) :=
  match db.bookings.filter (fun b => decide (b.pnr = pnr)) with
  | [] => .error .bookingNotFound
  | [b] =>
    match db.flights.find? (fun f => f.id = b.flightId) with
    | none => .error .flightNotFound
    | some flight =>
      match calculate_dynamic_fare flight demand now with
      | none => .error .pricingError
      | some (quote, fareRec) =>
        .ok
          ({ booking := b, current_pricing := quote,
             price_difference := quote.dynamic_fare - b.final_fare,
             history := db.history.filter (fun h => h.bookingPnr = b.pnr),
             transactions := db.transactions.filter (fun t => t.bookingPnr = b.pnr),
             can_cancel := b.can_be_cancelled flight now },
           { db with fare_history := db.fare_history ++ [fareRec] })
  | _ :: _ :: _ => .error .duplicatePnr

/-- Rollback semantics of the transaction.atomic wrapper around
create_booking, as observed by the caller: on error the persistent state is the
unchanged pre-state and no booking exists. -/
def runCreate (db : DB) (flight_id : ℕ) (p : Passenger) (seat_number : String)
    (payment_method : String) (newPnr : String) (paymentOk : Bool) (demand : DemandLevel)
    (now : ℚ) : DB × Option Booking × Option BookingError :=
  match create_booking db flight_id p seat_number payment_method newPnr paymentOk demand now with
  | .ok (db2, bk) => (db2, some bk, none)
  | .error e => (db, none, some e)

/-- Rollback semantics of the transaction.atomic wrapper around
cancel_booking: on error the persistent state is the unchanged pre-state. -/
def runCancel (db : DB) (pnr : String) (reason : String) (now : ℚ) :
    DB × Option BookingError :=
  match cancel_booking db pnr reason now with
  | .ok db2 => (db2, none)
  | .error e => (db, some e)

/-- Invariant of the Flight rows: 0 <= seats_available <= total_seats. -/
def FlightInvariant (db : DB) : Prop :=
  ∀ f ∈ db.flights, 0 ≤ f.seats_available ∧ f.seats_available ≤ f.total_seats

/-- Seat uniqueness: no two CONFIRMED bookings on the same flight share a seat
identifier. -/
def SeatUnique (db : DB) : Prop :=
  db.bookings.Pairwise fun a b =>
    a.booking_status = .CONFIRMED → b.booking_status = .CONFIRMED →
      a.flightId = b.flightId → a.seat_number ≠ b.seat_number

/-
Concrete fixtures used by witnesses and counterexamples.  Departure times are
seconds on the model clock; 720000 seconds is 200 hours, far outside every
surge tier and cancellation cutoff.
-/

/-- Fixture: a scheduled flight with 5 of 10 seats available, 200 hours from
departure, base fare 100. -/
def exFlight : Flight := ⟨1, "F1", 1, 2, 720000, 720001, 100, 10, 5, .SCHEDULED⟩

/-- Fixture: a passenger record. -/
def exPassenger : Passenger := ⟨"A", 30, "9999999999", "", ""⟩

/-- Fixture: the initial database holding only exFlight. -/
def exDB0 : DB := ⟨[exFlight], [], [], [], []⟩

/-- Fixture: a CONFIRMED booking of seat 12A on exFlight with reservation code
QQ9999 and captured fare 120. -/
def exBk : Booking :=
  ⟨"QQ9999", 1, "A", 30, "9999999999", "", "12A", .CONFIRMED, 120, .SUCCESS, ""⟩

/-- Fixture: a handcrafted committed state holding exBk with its payment
transaction and history (the state createBooking was intended to commit; the
source cannot reach it because every create aborts at the booking=None
transaction insert, but cancellation and read operations act on such rows
directly). -/
def exDb1 : DB :=
  ⟨[⟨1, "F1", 1, 2, 720000, 720001, 100, 10, 4, .SCHEDULED⟩], [exBk],
    [⟨"QQ9999", 120, "CREDIT_CARD", .SUCCESS, "SUCCESS"⟩],
    [⟨"QQ9999", "CREATED", "Booking created for A on flight F1"⟩,
      ⟨"QQ9999", "PAYMENT_SUCCESS", "Payment processed successfully"⟩],
    [⟨1, 120, 5, .LOW, 200, 6/5, 1, 1⟩]⟩

/-- Fixture: the committed state after cancelling that booking again. -/
def exDb2 : DB :=
  ⟨[⟨1, "F1", 1, 2, 720000, 720001, 100, 10, 5, .SCHEDULED⟩],
    [⟨"QQ9999", 1, "A", 30, "9999999999", "", "12A", .CANCELLED, 120, .SUCCESS, ""⟩],
    [⟨"QQ9999", 120, "CREDIT_CARD", .SUCCESS, "SUCCESS"⟩,
      ⟨"QQ9999", -120, "CREDIT_CARD", .SUCCESS, ""⟩],
    [⟨"QQ9999", "CREATED", "Booking created for A on flight F1"⟩,
      ⟨"QQ9999", "PAYMENT_SUCCESS", "Payment processed successfully"⟩,
      ⟨"QQ9999", "CANCELLED", "Booking cancelled. Reason: Customer request"⟩],
    [⟨1, 120, 5, .LOW, 200, 6/5, 1, 1⟩]⟩

/-- Fixture: the state after reading booking details on exDb1: identical except
for the FareHistory row appended by the pricing call inside
get_booking_details. -/
def exDb1Read : DB :=
  { exDb1 with fare_history := exDb1.fare_history ++ [⟨1, 120, 4, .LOW, 200, 6/5, 1, 1⟩] }

/-- Fixture: a scheduled future flight whose seats are sold out. -/
def soldOutDB : DB := ⟨[⟨1, "F1", 1, 2, 720000, 720001, 100, 10, 0, .SCHEDULED⟩], [], [], [], []⟩

/-- Fixture: a flight with exactly one seat left. -/
def lastSeatDB : DB := ⟨[⟨1, "F1", 1, 2, 720000, 720001, 100, 10, 1, .SCHEDULED⟩], [], [], [], []⟩

/-- Fixture: a confirmed booking on a flight departing in 3 hours (10800 s). -/
def cancel3DB : DB :=
  ⟨[⟨1, "F1", 1, 2, 10800, 20000, 100, 10, 4, .SCHEDULED⟩],
    [⟨"AB1234", 1, "A", 30, "9999999999", "", "1A", .CONFIRMED, 100, .SUCCESS, ""⟩],
    [⟨"AB1234", 100, "UPI", .SUCCESS, "SUCCESS"⟩], [], []⟩

/-- Fixture: a confirmed booking on a flight departing in 1 hour (3600 s). -/
def cancel1DB : DB :=
  ⟨[⟨1, "F1", 1, 2, 3600, 20000, 100, 10, 4, .SCHEDULED⟩],
    [⟨"AB1234", 1, "A", 30, "9999999999", "", "1A", .CONFIRMED, 100, .SUCCESS, ""⟩],
    [⟨"AB1234", 100, "UPI", .SUCCESS, "SUCCESS"⟩], [], []⟩

/-- Fixture: the spec scenario flight: base fare 5000, 30 of 180 seats left,
departing in 10 hours (36000 s). -/
def c4Flight : Flight := ⟨1, "AI101", 1, 2, 36000, 40000, 5000, 180, 30, .SCHEDULED⟩

/-- Fixture: a flight whose raw dynamic fare is 1 x 3/2 x 1 x 23/20 = 1.725, a
tie at the second decimal with an even preceding digit, where half-even and
half-up rounding differ. -/
def c8Flight : Flight := ⟨1, "AI101", 1, 2, 7000000, 7000001, 1, 10, 1, .SCHEDULED⟩

/-
Shared lemmas about the embedded operations.
-/

/-- Inversion of a successful cancel_booking: exactly one CONFIRMED booking
matched the pnr, the cutoff and the flight save validation passed, a payment
transaction existed, and the committed state carries the seat increment, the
status flip, the refund row and the history entry. -/
theorem cancel_ok_inv {db : DB} {pnr reason : String} {now : ℚ} {db2 : DB}
    (h : cancel_booking db pnr reason now = .ok db2) :
    ∃ b flight tx,
      db.bookings.filter (fun x =>
        decide (x.pnr = pnr) && decide (x.booking_status = .CONFIRMED)) = [b] ∧
      db.flights.find? (fun f => f.id = b.flightId) = some flight ∧
      b.can_be_cancelled flight now = true ∧
      Flight.full_clean_ok { flight with seats_available := flight.seats_available + 1 } = true ∧
      (db.transactions.filter (fun t => t.bookingPnr = b.pnr)).getLast? = some tx ∧
      db2 = { flights := updateFlight db.flights
                  { flight with seats_available := flight.seats_available + 1 },
              bookings := updateBooking db.bookings
                  { b with booking_status := BookingStatus.CANCELLED },
              transactions := db.transactions ++
                [⟨b.pnr, -b.final_fare, tx.payment_method, .SUCCESS, ""⟩],
              history := db.history ++
                [⟨b.pnr, "CANCELLED", "Booking cancelled. Reason: " ++ reason⟩],
              fare_history := db.fare_history } := by
  unfold cancel_booking at h
  split at h
  · simp at h
  · rename_i b hfil
    split at h
    · simp at h
    rename_i flight hfind
    split at h
    · simp at h
    rename_i hcan
    split at h
    · simp at h
    rename_i hclean
    split at h
    · simp at h
    rename_i tx htx
    rw [Except.ok.injEq] at h
    refine ⟨b, flight, tx, hfil, hfind, ?_, ?_, htx, h.symm⟩
    · simpa using hcan
    · simpa using hclean
  · simp at h

/-- Updating the flight row found by find? leaves it the first match of the
same lookup. -/
theorem find?_updateFlight {fs : List Flight} {fl : Flight} {fid : ℕ} (fl2 : Flight)
    (h : fs.find? (fun g => g.id = fid) = some fl) (hid : fl2.id = fl.id) :
    (updateFlight fs fl2).find? (fun g => g.id = fid) = some fl2 := by
  have hfl : fl.id = fid := by simpa using List.find?_some h
  induction fs with
  | nil => simp at h
  | cons a t ih =>
    by_cases ha : a.id = fid
    · rw [List.find?_cons_of_pos _ (by simpa using ha)] at h
      have haf : a = fl := by simpa using h
      have hrepl : (if a.id = fl2.id then fl2 else a) = fl2 := by
        rw [if_pos (by rw [hid, haf])]
      simp only [updateFlight, List.map_cons, hrepl]
      exact List.find?_cons_of_pos _ (by simp [hid, hfl])
    · rw [List.find?_cons_of_neg _ (by simpa using ha)] at h
      have hrepl : (if a.id = fl2.id then fl2 else a) = a := by
        rw [if_neg]
        rw [hid, hfl]
        exact ha
      simp only [updateFlight, List.map_cons, hrepl]
      rw [List.find?_cons_of_neg _ (by simpa using ha)]
      exact ih h

/-- Half-even and half-up rounding to the nearest integer agree away from
exact ties. -/
theorem roundHalfEvenInt_eq_halfUp {x : ℚ} (h : x - ⌊x⌋ ≠ 1 / 2) :
    roundHalfEvenInt x = roundHalfUpInt x := by
  have h0 : (0 : ℚ) ≤ x - ⌊x⌋ := by
    have := Int.floor_le x
    linarith
  have h1 : x - ⌊x⌋ < 1 := by
    have := Int.lt_floor_add_one x
    linarith
  unfold roundHalfEvenInt roundHalfUpInt
  rcases lt_trichotomy (x - ⌊x⌋) (1 / 2) with hlt | heq | hgt
  · rw [if_pos hlt]
    symm
    rw [Int.floor_eq_iff]
    constructor
    · have := Int.floor_le x
      linarith
    · linarith
  · exact absurd heq h
  · rw [if_neg (by linarith), if_pos hgt]
    symm
    rw [Int.floor_eq_iff]
    constructor
    · push_cast
      linarith
    · push_cast
      linarith

/-- Every create_booking call fails: each branch of the operation ends in a
typed error, because any run that survives validation and pricing aborts at the
booking=None PaymentTransaction insert. -/
theorem create_isOk_false (db : DB) (fid : ℕ) (p : Passenger) (seat pm pnr : String)
    (pay : Bool) (dem : DemandLevel) (now : ℚ) :
    (create_booking db fid p seat pm pnr pay dem now).isOk = false := by
  unfold create_booking
  split
  · rfl
  split
  · rfl
  split
  · rfl
  split
  · rfl
  split
  · rfl
  · rfl

/-- The caller-visible rollback of every create attempt: the runner returns the
unchanged pre-state and no booking. -/
theorem runCreate_rollback (db : DB) (fid : ℕ) (p : Passenger) (seat pm pnr : String)
    (pay : Bool) (dem : DemandLevel) (now : ℚ) :
    (runCreate db fid p seat pm pnr pay dem now).1 = db ∧
    (runCreate db fid p seat pm pnr pay dem now).2.1 = none := by
  unfold runCreate
  cases hc : create_booking db fid p seat pm pnr pay dem now with
  | ok r =>
    have h2 := create_isOk_false db fid p seat pm pnr pay dem now
    rw [hc] at h2
    simp [Except.isOk, Except.toBool] at h2
  | error e => exact ⟨rfl, rfl⟩

/-- Evaluation: cancelling the fixture booking on exDb1 succeeds and commits
exDb2. -/
theorem eval_cancel :
    cancel_booking exDb1 "QQ9999" "Customer request" 0 = .ok exDb2 := by
  unfold cancel_booking exDb1 exBk
  norm_num [List.filter, List.find?, Booking.can_be_cancelled, Flight.full_clean_ok,
    List.getLast?, updateFlight, updateBooking, exDb2]
  rfl

end FlightBooking
namespace FlightBooking

/-- Claim C1 (code bug): the claim assumes the simulated payment step runs and
that its failure aborts the operation cleanly.  In the source, every create
attempt aborts before payment: the booking=None PaymentTransaction insert
violates the non-nullable foreign key.  What the code actually guarantees:
every create attempt, whatever the payment outcome would have been, leaves the
caller-visible state unchanged and creates no booking; the result is
independent of the payment outcome because the payment step is dead code; and
a request passing every validation surfaces the wrapped IntegrityError, not a
payment failure. -/
theorem claim_C1 :
    (∀ (db : DB) (fid : ℕ) (p : Passenger) (seat pm pnr : String) (pay : Bool)
        (dem : DemandLevel) (now : ℚ),
      (runCreate db fid p seat pm pnr pay dem now).1 = db ∧
      (runCreate db fid p seat pm pnr pay dem now).2.1 = none) ∧
    (∀ (db : DB) (fid : ℕ) (p : Passenger) (seat pm pnr : String) (dem : DemandLevel)
        (now : ℚ),
      create_booking db fid p seat pm pnr true dem now =
        create_booking db fid p seat pm pnr false dem now) ∧
    (∀ (db : DB) (fid : ℕ) (p : Passenger) (seat pm pnr : String) (pay : Bool)
        (dem : DemandLevel) (now : ℚ) (flight : Flight),
      db.flights.find? (fun f => f.id = fid) = some flight →
      flight.is_available now = true →
      (db.bookings.any fun b =>
        decide (b.flightId = flight.id) && decide (b.seat_number = seat) &&
          decide (b.booking_status = .CONFIRMED)) = false →
      (calculate_dynamic_fare flight dem now).isSome = true →
      create_booking db fid p seat pm pnr pay dem now = .error .integrityError) := by
  refine ⟨runCreate_rollback, fun db fid p seat pm pnr dem now => rfl, ?_⟩
  intro db fid p seat pm pnr pay dem now flight hfind hav hany hq
  obtain ⟨pr, hpr⟩ := Option.isSome_iff_exists.mp hq
  have hpos : ¬ flight.seats_available ≤ 0 := by
    simp [Flight.is_available] at hav
    omega
  unfold create_booking
  simp only [hfind, hav, hany, hpr]
  rw [if_neg (by simp : ¬ (true = false)), if_neg hpos,
    if_neg (by simp : ¬ (false = true))]

end FlightBooking
namespace FlightBooking

/-- Claim C4: for base fare 5000, 30 of 180 seats left (surge tier 1.5),
departure in 10 hours (tier 1.4) and demand pinned to MEDIUM (1.15), the
multiplicative engine returns 5000 x 1.5 x 1.4 x 1.15 = 12075.00. -/
theorem claim_C4 :
    (calculate_dynamic_fare c4Flight .MEDIUM 0).map (fun pr => pr.1.dynamic_fare) =
        some 12075 ∧
    calculate_seat_factor c4Flight.seats_available c4Flight.total_seats = 3 / 2 ∧
    calculate_time_factor ((c4Flight.departure_time - 0) / 3600) = 7 / 5 ∧
    demandFactor .MEDIUM = 23 / 20 := by
  refine ⟨?_, ?_, ?_, rfl⟩
  · norm_num [calculate_dynamic_fare, calculate_seat_factor, calculate_time_factor,
      demandFactor, pyRound, roundHalfEvenInt, c4Flight, Int.floor_eq_iff]
  · norm_num [calculate_seat_factor, c4Flight]
  · norm_num [calculate_time_factor, c4Flight]

/-- Claim C10: the seat-factor computation is total at the degenerate
boundary: when total_seats = 0 it returns the neutral factor 1.0 for every
seats_available, without evaluating the occupancy division. -/
theorem claim_C10 : ∀ a : ℤ, calculate_seat_factor a 0 = 1 := by
  intro a
  simp [calculate_seat_factor]

/-- Claim C8 (counterexample): at base fare 1, seat factor 1.5, time factor
1.0 and MEDIUM demand the raw fare is 1.725; the engine returns 1.72 (Python
round, half-to-even) while standard half-up rounding yields 1.73. -/
theorem claim_C8_counterexample :
    (calculate_dynamic_fare c8Flight .MEDIUM 0).map (fun pr => pr.1.dynamic_fare) =
        some (43 / 25) ∧
    halfUpRound 2 (raw_fare c8Flight .MEDIUM 0) = 173 / 100 ∧
    (43 / 25 : ℚ) ≠ 173 / 100 := by
  refine ⟨?_, ?_, by norm_num⟩
  · norm_num [calculate_dynamic_fare, calculate_seat_factor, calculate_time_factor,
      demandFactor, pyRound, roundHalfEvenInt, c8Flight, Int.floor_eq_iff]
  · norm_num [halfUpRound, roundHalfUpInt, raw_fare, calculate_seat_factor,
      calculate_time_factor, demandFactor, c8Flight, Int.floor_eq_iff]

/-- Claim C8 (amended): the engine rounds the final fare to 2 decimal places
with Python round, which is round-half-to-even, not half-up; away from exact
ties at the third decimal this agrees with standard half-up rounding. -/
theorem claim_C8 (f : Flight) (dem : DemandLevel) (now : ℚ) (fare : ℚ)
    (h : (calculate_dynamic_fare f dem now).map (fun pr => pr.1.dynamic_fare) = some fare)
    (ht : raw_fare f dem now * 100 - ⌊raw_fare f dem now * 100⌋ ≠ 1 / 2) :
    fare = pyRound 2 (raw_fare f dem now) ∧
    fare = halfUpRound 2 (raw_fare f dem now) := by
  have hpow : ((10 : ℚ)) ^ (2 : ℕ) = 100 := by norm_num
  have hfare : fare = pyRound 2 (raw_fare f dem now) := by
    unfold calculate_dynamic_fare at h
    split at h
    · simp at h
    · simp only [Option.map_some', Option.some.injEq] at h
      rw [← h]
      rfl
  have hr : roundHalfEvenInt (raw_fare f dem now * (10 : ℚ) ^ (2 : ℕ)) =
      roundHalfUpInt (raw_fare f dem now * (10 : ℚ) ^ (2 : ℕ)) := by
    apply roundHalfEvenInt_eq_halfUp
    rw [hpow]
    exact ht
  refine ⟨hfare, ?_⟩
  rw [hfare]
  unfold pyRound halfUpRound
  rw [hr]

end FlightBooking
namespace FlightBooking

/-- Witness for claim C8 at the spec scenario flight: the raw fare 12075 is
not a tie, and the engine result agrees with half-up rounding there. -/
theorem claim_C8_witness :
    (calculate_dynamic_fare c4Flight .MEDIUM 0).map (fun pr => pr.1.dynamic_fare) =
        some 12075 ∧
    raw_fare c4Flight .MEDIUM 0 * 100 - ⌊raw_fare c4Flight .MEDIUM 0 * 100⌋ ≠ 1 / 2 ∧
    (12075 : ℚ) = pyRound 2 (raw_fare c4Flight .MEDIUM 0) ∧
    (12075 : ℚ) = halfUpRound 2 (raw_fare c4Flight .MEDIUM 0) := by
  have h1 : (calculate_dynamic_fare c4Flight .MEDIUM 0).map (fun pr => pr.1.dynamic_fare) =
      some 12075 := by
    norm_num [calculate_dynamic_fare, calculate_seat_factor, calculate_time_factor,
      demandFactor, pyRound, roundHalfEvenInt, c4Flight, Int.floor_eq_iff]
  have h2 : raw_fare c4Flight .MEDIUM 0 * 100 - ⌊raw_fare c4Flight .MEDIUM 0 * 100⌋ ≠ 1 / 2 := by
    norm_num [raw_fare, calculate_seat_factor, calculate_time_factor, demandFactor,
      c4Flight, Int.floor_eq_iff]
  obtain ⟨ha, hb⟩ := claim_C8 c4Flight .MEDIUM 0 12075 h1 h2
  exact ⟨h1, h2, ha, hb⟩

/-- Claim C7 (amended): the retry-until-unique loop of Booking.save never
returns a code that is already persisted, and every candidate that
generate_pnr produces is two uppercase letters followed by four digits; the
loop has no retry bound and no error exit. -/
theorem claim_C7 :
    (∀ (gen : ℕ → String) (taken : String → Bool) (n : ℕ) (r : String),
      pnrSaveLoop gen taken n r → taken r = false) ∧
    (∀ (l1 l2 : Fin 26) (d1 d2 d3 d4 : Fin 10),
      isPnrFormat (generate_pnr l1 l2 d1 d2 d3 d4) = true) := by
  constructor
  · intro gen taken n r h
    induction h with
    | found n hf => exact hf
    | collide n r ht hrec ih => exact ih
  · intro l1 l2 d1 d2 d3 d4
    have hu1 : pickUpper l1 ∈ ascii_uppercase := List.get_mem _ _ _
    have hu2 : pickUpper l2 ∈ ascii_uppercase := List.get_mem _ _ _
    have hd1 : pickDigit d1 ∈ digitChars := List.get_mem _ _ _
    have hd2 : pickDigit d2 ∈ digitChars := List.get_mem _ _ _
    have hd3 : pickDigit d3 ∈ digitChars := List.get_mem _ _ _
    have hd4 : pickDigit d4 ∈ digitChars := List.get_mem _ _ _
    simp [isPnrFormat, generate_pnr, String.toList, hu1, hu2, hd1, hd2, hd3, hd4]

/-- Counterexample for claim C7: with the persisted code AA0000 and a random
stream that keeps producing AA0000, the Booking.save loop has no
terminating run at all: it retries forever and never surfaces a
duplicate-reference error. -/
theorem claim_C7_counterexample :
    ¬ pnrLoopTerminates (fun _ => "AA0000") (fun c => (["AA0000"] : List String).contains c) := by
  rintro ⟨r, h⟩
  have key : ∀ (m : ℕ) (s : String),
      ¬ pnrSaveLoop (fun _ => "AA0000") (fun c => (["AA0000"] : List String).contains c) m s := by
    intro m s hm
    induction hm with
    | found k hf => simp at hf
    | collide k s2 ht hrec ih => exact ih
  exact key 0 r h

/-- Witness for claim C7: a loop run whose first candidate is fresh returns
that candidate, and it has the two-letters-four-digits format. -/
theorem claim_C7_witness :
    (fun _ : String => false) (generate_pnr 0 0 0 0 0 0) = false ∧
    isPnrFormat (generate_pnr 0 0 0 0 0 0) = true :=
  ⟨claim_C7.1 (fun _ => generate_pnr 0 0 0 0 0 0) (fun _ => false) 0 _
      (.found 0 rfl),
    claim_C7.2 0 0 0 0 0 0⟩

/-- Witness for claim C1: on the fixture database every validation passes, and
the attempt surfaces the wrapped IntegrityError for either payment outcome
while the runner leaves the state unchanged. -/
theorem claim_C1_witness :
    exDB0.flights.find? (fun f => f.id = 1) = some exFlight ∧
    exFlight.is_available 0 = true ∧
    (exDB0.bookings.any fun b =>
      decide (b.flightId = exFlight.id) && decide (b.seat_number = "12A") &&
        decide (b.booking_status = .CONFIRMED)) = false ∧
    (calculate_dynamic_fare exFlight .LOW 0).isSome = true ∧
    create_booking exDB0 1 exPassenger "12A" "CREDIT_CARD" "QQ9999" true .LOW 0 =
      .error .integrityError ∧
    create_booking exDB0 1 exPassenger "12A" "CREDIT_CARD" "QQ9999" false .LOW 0 =
      .error .integrityError ∧
    (runCreate exDB0 1 exPassenger "12A" "CREDIT_CARD" "QQ9999" true .LOW 0).1 = exDB0 := by
  have h1 : exDB0.flights.find? (fun f => f.id = 1) = some exFlight := by
    norm_num [exDB0, List.find?, exFlight]
  have h2 : exFlight.is_available 0 = true := by
    norm_num [Flight.is_available, exFlight]
  have h3 : (exDB0.bookings.any fun b =>
      decide (b.flightId = exFlight.id) && decide (b.seat_number = "12A") &&
        decide (b.booking_status = .CONFIRMED)) = false := by
    norm_num [exDB0]
  have h4 : (calculate_dynamic_fare exFlight .LOW 0).isSome = true := by
    norm_num [calculate_dynamic_fare, exFlight]
  have htrue := claim_C1.2.2 exDB0 1 exPassenger "12A" "CREDIT_CARD" "QQ9999" true .LOW 0
    exFlight h1 h2 h3 h4
  have hfalse := claim_C1.2.2 exDB0 1 exPassenger "12A" "CREDIT_CARD" "QQ9999" false .LOW 0
    exFlight h1 h2 h3 h4
  exact ⟨h1, h2, h3, h4, htrue, hfalse,
    (claim_C1.1 exDB0 1 exPassenger "12A" "CREDIT_CARD" "QQ9999" true .LOW 0).1⟩

end FlightBooking
namespace FlightBooking

/-- Claim C2 (code bug): what the code actually guarantees for the flight
invariant 0 <= seats_available <= total_seats.  A successful cancelBooking
increments seats_available by exactly one and preserves the invariant.  But
createBooking never commits: every attempt aborts (at the latest at the
booking=None PaymentTransaction insert), so the claimed decrement never occurs
and the runner returns the unchanged pre-state, trivially preserving the
invariant; booking the last available seat fails with the wrapped
IntegrityError instead of setting seats_available to 0; and a createBooking
call on a flight with seats_available <= 0 fails without mutation, but with
the flight-not-available error, the dedicated no-seats-available branch being
unreachable. -/
theorem claim_C2 :
    (∀ (db : DB) (pnr reason : String) (now : ℚ) (db2 : DB) (b : Booking) (f : Flight),
      cancel_booking db pnr reason now = .ok db2 →
      db.bookings.filter (fun x =>
        decide (x.pnr = pnr) && decide (x.booking_status = .CONFIRMED)) = [b] →
      db.flights.find? (fun g => g.id = b.flightId) = some f →
      db2.flights.find? (fun g => g.id = b.flightId) =
          some { f with seats_available := f.seats_available + 1 } ∧
        (FlightInvariant db → FlightInvariant db2)) ∧
    (∀ (db : DB) (fid : ℕ) (p : Passenger) (seat pm pnr : String) (pay : Bool)
        (dem : DemandLevel) (now : ℚ),
      (runCreate db fid p seat pm pnr pay dem now).1 = db ∧
      (runCreate db fid p seat pm pnr pay dem now).2.1 = none) ∧
    (∀ (db : DB) (fid : ℕ) (p : Passenger) (seat pm pnr : String) (pay : Bool)
        (dem : DemandLevel) (now : ℚ) (f : Flight),
      db.flights.find? (fun g => g.id = fid) = some f →
      f.seats_available ≤ 0 →
      create_booking db fid p seat pm pnr pay dem now = .error .flightNotAvailable) ∧
    create_booking lastSeatDB 1 exPassenger "12A" "CREDIT_CARD" "QQ9999" true .LOW 0 =
      .error .integrityError := by
  refine ⟨?_, runCreate_rollback, ?_, ?_⟩
  · intro db pnr reason now db2 b f h hfil hf
    obtain ⟨b2, fl, tx, hfil2, hfind, hcan, hcl, htx, hdb⟩ := cancel_ok_inv h
    rw [hfil] at hfil2
    obtain rfl : b = b2 := by injection hfil2
    rw [hf] at hfind
    obtain rfl : f = fl := by injection hfind
    have hbounds : 0 ≤ f.seats_available + 1 ∧ f.seats_available + 1 ≤ f.total_seats := by
      simp [Flight.full_clean_ok] at hcl
      omega
    constructor
    · rw [hdb]
      exact find?_updateFlight _ hf rfl
    · intro hinv g hg
      rw [hdb] at hg
      simp only [updateFlight, List.mem_map] at hg
      obtain ⟨x, hx, hxe⟩ := hg
      by_cases hxid : x.id = ({ f with seats_available := f.seats_available + 1 } : Flight).id
      · rw [if_pos hxid] at hxe
        rw [← hxe]
        exact hbounds
      · rw [if_neg hxid] at hxe
        rw [← hxe]
        exact hinv x hx
  · intro db fid p seat pm pnr pay dem now f hf hseat
    have hfalse : f.is_available now = false := by
      have hs : decide (0 < f.seats_available) = false := by
        simp
        omega
      simp [Flight.is_available, hs]
    unfold create_booking
    simp only [hf, hfalse]
    rw [if_pos trivial]
  · unfold create_booking lastSeatDB
    norm_num [List.find?, Flight.is_available, calculate_dynamic_fare]

/-- Witness for claim C2: the cancel increment and invariant on the fixtures,
and the sold-out failure with the flight-not-available error. -/
theorem claim_C2_witness :
    (exDb2.flights.find? (fun g => g.id = exBk.flightId) =
        some { (⟨1, "F1", 1, 2, 720000, 720001, 100, 10, 4, .SCHEDULED⟩ : Flight) with
          seats_available :=
            (⟨1, "F1", 1, 2, 720000, 720001, 100, 10, 4, .SCHEDULED⟩ : Flight).seats_available
              + 1 } ∧
      FlightInvariant exDb2) ∧
    create_booking soldOutDB 1 exPassenger "1A" "CREDIT_CARD" "AA1111" true .LOW 0 =
        .error .flightNotAvailable := by
  have hinv1 : FlightInvariant exDb1 := by
    intro g hg
    simp [exDb1] at hg
    rw [hg]
    norm_num
  have hfil1 : exDb1.bookings.filter (fun x =>
      decide (x.pnr = "QQ9999") && decide (x.booking_status = .CONFIRMED)) = [exBk] := by
    norm_num [exDb1, List.filter, exBk]
  have hf1 : exDb1.flights.find? (fun g => g.id = exBk.flightId) =
      some (⟨1, "F1", 1, 2, 720000, 720001, 100, 10, 4, .SCHEDULED⟩ : Flight) := by
    norm_num [exDb1, List.find?, exBk]
  have hc2 := claim_C2.1 exDb1 "QQ9999" "Customer request" 0 exDb2 exBk
    (⟨1, "F1", 1, 2, 720000, 720001, 100, 10, 4, .SCHEDULED⟩ : Flight)
    eval_cancel hfil1 hf1
  have hfs : soldOutDB.flights.find? (fun g => g.id = 1) =
      some (⟨1, "F1", 1, 2, 720000, 720001, 100, 10, 0, .SCHEDULED⟩ : Flight) := by
    norm_num [soldOutDB, List.find?]
  have hc4 := claim_C2.2.2.1 soldOutDB 1 exPassenger "1A" "CREDIT_CARD" "AA1111" true
    .LOW 0 (⟨1, "F1", 1, 2, 720000, 720001, 100, 10, 0, .SCHEDULED⟩ : Flight)
    hfs (by norm_num)
  exact ⟨⟨hc2.1, hc2.2 hinv1⟩, hc4⟩

/-- Claim C3: no two CONFIRMED bookings of one flight ever share a seat
identifier.  createBooking refuses a seat already held by a CONFIRMED booking
of the same flight with the seat-already-taken error (this check runs before
the aborting transaction insert); every create attempt leaves the bookings
unchanged (none ever commits), so it preserves seat uniqueness; and a
successful cancelBooking also preserves it, since it only turns a CONFIRMED
booking into a CANCELLED one. -/
theorem claim_C3 :
    (∀ (db : DB) (fid : ℕ) (p : Passenger) (seat pm pnr : String) (pay : Bool)
        (dem : DemandLevel) (now : ℚ),
      SeatUnique db → SeatUnique (runCreate db fid p seat pm pnr pay dem now).1) ∧
    (∀ (db : DB) (pnr reason : String) (now : ℚ) (db2 : DB),
      cancel_booking db pnr reason now = .ok db2 →
      SeatUnique db → SeatUnique db2) ∧
    (∀ (db : DB) (fid : ℕ) (p : Passenger) (seat pm pnr : String) (pay : Bool)
        (dem : DemandLevel) (now : ℚ) (flight : Flight),
      db.flights.find? (fun f => f.id = fid) = some flight →
      flight.is_available now = true →
      (∃ b ∈ db.bookings, b.flightId = flight.id ∧ b.seat_number = seat ∧
        b.booking_status = .CONFIRMED) →
      create_booking db fid p seat pm pnr pay dem now = .error .seatAlreadyTaken) := by
  refine ⟨?_, ?_, ?_⟩
  · intro db fid p seat pm pnr pay dem now hsu
    rw [(runCreate_rollback db fid p seat pm pnr pay dem now).1]
    exact hsu
  · intro db pnr reason now db2 h hsu
    obtain ⟨b, f, tx, hfil, hfind, hcan, hcl, htx, hdb2⟩ := cancel_ok_inv h
    rw [hdb2]
    unfold SeatUnique at hsu ⊢
    unfold updateBooking
    rw [List.pairwise_map]
    refine hsu.imp ?_
    intro a c hR
    by_cases ha : a.pnr = ({ b with booking_status := BookingStatus.CANCELLED } : Booking).pnr
    · rw [if_pos ha]
      intro hC
      simp at hC
    · rw [if_neg ha]
      by_cases hc2 : c.pnr = ({ b with booking_status := BookingStatus.CANCELLED } : Booking).pnr
      · rw [if_pos hc2]
        intro _ hC
        simp at hC
      · rw [if_neg hc2]
        exact hR
  · intro db fid p seat pm pnr pay dem now flight hfind hav hex
    obtain ⟨b, hb, hb1, hb2, hb3⟩ := hex
    have hpos : ¬ flight.seats_available ≤ 0 := by
      simp [Flight.is_available] at hav
      omega
    have hany : (db.bookings.any fun x =>
        decide (x.flightId = flight.id) && decide (x.seat_number = seat) &&
          decide (x.booking_status = .CONFIRMED)) = true := by
      rw [List.any_eq_true]
      exact ⟨b, hb, by simp [hb1, hb2, hb3]⟩
    unfold create_booking
    simp only [hfind, hav, hany, if_neg hpos]
    rw [if_neg (by simp : ¬ (true = false)), if_pos trivial]

/-- Witness for claim C3 on the fixtures: a create attempt leaves the unique
state unique, cancellation preserves uniqueness, and re-requesting the taken
seat 12A fails. -/
theorem claim_C3_witness :
    SeatUnique (runCreate exDb1 1 exPassenger "11A" "CREDIT_CARD" "AA0001" true .LOW 0).1 ∧
    SeatUnique exDb2 ∧
    create_booking exDb1 1 exPassenger "12A" "CREDIT_CARD" "ZZ0000" true .LOW 0 =
      .error .seatAlreadyTaken := by
  have hsu1 : SeatUnique exDb1 := by
    simp [SeatUnique, exDb1]
  have hf1 : exDb1.flights.find? (fun f => f.id = 1) =
      some (⟨1, "F1", 1, 2, 720000, 720001, 100, 10, 4, .SCHEDULED⟩ : Flight) := by
    norm_num [exDb1, List.find?]
  have hav : Flight.is_available
      (⟨1, "F1", 1, 2, 720000, 720001, 100, 10, 4, .SCHEDULED⟩ : Flight) 0 = true := by
    norm_num [Flight.is_available]
  refine ⟨claim_C3.1 exDb1 1 exPassenger "11A" "CREDIT_CARD" "AA0001" true .LOW 0 hsu1,
    claim_C3.2.1 exDb1 "QQ9999" "Customer request" 0 exDb2 eval_cancel hsu1, ?_⟩
  exact claim_C3.2.2 exDb1 1 exPassenger "12A" "CREDIT_CARD" "ZZ0000" true .LOW 0 _ hf1 hav
    ⟨exBk, by simp [exDb1], rfl, rfl, rfl⟩

end FlightBooking
namespace FlightBooking

/-- Claim C5 (code bug): the inventory round-trip presupposes a successful
createBooking, but createBooking never succeeds in the source: every attempt
aborts at the booking=None PaymentTransaction insert, so the round-trip
scenario is unreachable.  At a fully valid request on the fixture database the
attempt returns the wrapped IntegrityError. -/
theorem claim_C5 :
    (∀ (db : DB) (fid : ℕ) (p : Passenger) (seat pm pnr : String) (pay : Bool)
        (dem : DemandLevel) (now : ℚ),
      (create_booking db fid p seat pm pnr pay dem now).isOk = false) ∧
    create_booking exDB0 1 exPassenger "12A" "CREDIT_CARD" "QQ9999" true .LOW 0 =
      .error .integrityError := by
  refine ⟨create_isOk_false, ?_⟩
  unfold create_booking exDB0 exFlight
  norm_num [List.find?, Flight.is_available, calculate_dynamic_fare]

/-- Claim C6: cancelBooking succeeds only for a CONFIRMED booking departing
more than 2 hours (7200 s) later; within the window it fails with the
cancellation-window error, an absent or already cancelled PNR fails with the
not-found error, and on any failure the caller-visible state is unchanged. -/
theorem claim_C6 :
    (∀ (db : DB) (pnr reason : String) (now : ℚ) (b : Booking) (f : Flight),
      db.bookings.filter (fun x =>
        decide (x.pnr = pnr) && decide (x.booking_status = .CONFIRMED)) = [b] →
      db.flights.find? (fun g => g.id = b.flightId) = some f →
      f.departure_time - now ≤ 7200 →
      cancel_booking db pnr reason now = .error .cancellationWindowClosed) ∧
    (∀ (db : DB) (pnr reason : String) (now : ℚ) (db2 : DB),
      cancel_booking db pnr reason now = .ok db2 →
      ∃ b, b ∈ db.bookings ∧ b.pnr = pnr ∧ b.booking_status = .CONFIRMED ∧
        ∃ f, db.flights.find? (fun g => g.id = b.flightId) = some f ∧
          7200 < f.departure_time - now) ∧
    (∀ (db : DB) (pnr reason : String) (now : ℚ) (b : Booking) (f : Flight),
      db.bookings.filter (fun x =>
        decide (x.pnr = pnr) && decide (x.booking_status = .CONFIRMED)) = [b] →
      db.flights.find? (fun g => g.id = b.flightId) = some f →
      7200 < f.departure_time - now →
      Flight.full_clean_ok { f with seats_available := f.seats_available + 1 } = true →
      (db.transactions.filter (fun t => t.bookingPnr = b.pnr)).getLast?.isSome = true →
      (cancel_booking db pnr reason now).isOk = true) ∧
    (∀ (db : DB) (pnr reason : String) (now : ℚ),
      (∀ b ∈ db.bookings, ¬ (b.pnr = pnr ∧ b.booking_status = .CONFIRMED)) →
      cancel_booking db pnr reason now = .error .bookingNotFound) ∧
    (∀ (db : DB) (pnr reason : String) (now : ℚ) (e : BookingError),
      cancel_booking db pnr reason now = .error e →
      runCancel db pnr reason now = (db, some e)) := by
  refine ⟨?_, ?_, ?_, ?_, ?_⟩
  · intro db pnr reason now b f hfil hfind hle
    have hbC : b.booking_status = BookingStatus.CONFIRMED := by
      have hmem : b ∈ db.bookings.filter (fun x =>
          decide (x.pnr = pnr) && decide (x.booking_status = .CONFIRMED)) := by
        rw [hfil]
        simp
      have hp := (List.mem_filter.mp hmem).2
      simp at hp
      exact hp.2
    have hcan : b.can_be_cancelled f now = false := by
      simp [Booking.can_be_cancelled, hbC]
      linarith
    unfold cancel_booking
    simp only [hfil, hfind, hcan]
    rw [if_pos trivial]
  · intro db pnr reason now db2 h
    obtain ⟨b, f, tx, hfil, hfind, hcan, hcl, htx, hdb2⟩ := cancel_ok_inv h
    have hmem : b ∈ db.bookings.filter (fun x =>
        decide (x.pnr = pnr) && decide (x.booking_status = .CONFIRMED)) := by
      rw [hfil]
      simp
    obtain ⟨hb, hp⟩ := List.mem_filter.mp hmem
    simp at hp
    simp [Booking.can_be_cancelled, hp.2] at hcan
    exact ⟨b, hb, hp.1, hp.2, f, hfind, hcan⟩
  · intro db pnr reason now b f hfil hfind hgt hcl htx
    have hbC : b.booking_status = BookingStatus.CONFIRMED := by
      have hmem : b ∈ db.bookings.filter (fun x =>
          decide (x.pnr = pnr) && decide (x.booking_status = .CONFIRMED)) := by
        rw [hfil]
        simp
      have hp := (List.mem_filter.mp hmem).2
      simp at hp
      exact hp.2
    have hcan : b.can_be_cancelled f now = true := by
      simp [Booking.can_be_cancelled, hbC]
      linarith
    obtain ⟨tx, htx2⟩ := Option.isSome_iff_exists.mp htx
    unfold cancel_booking
    simp only [hfil, hfind, hcan, hcl, htx2]
    rfl
  · intro db pnr reason now hnone
    have hfil : db.bookings.filter (fun x =>
        decide (x.pnr = pnr) && decide (x.booking_status = .CONFIRMED)) = [] := by
      rw [List.filter_eq_nil_iff]
      intro a ha
      simp
      intro h1 h2
      exact hnone a ha ⟨h1, h2⟩
    unfold cancel_booking
    simp only [hfil]
  · intro db pnr reason now e h
    unfold runCancel
    rw [h]

end FlightBooking
namespace FlightBooking

/-- Witness for claim C6 on the fixtures: departing in 1 hour fails with the
window error and leaves the state unchanged; departing in 3 hours succeeds; an
unknown PNR reports not-found. -/
theorem claim_C6_witness :
    cancel_booking cancel1DB "AB1234" "late" 0 = .error .cancellationWindowClosed ∧
    (cancel_booking cancel3DB "AB1234" "ok" 0).isOk = true ∧
    cancel_booking exDB0 "ZZ0000" "none" 0 = .error .bookingNotFound ∧
    runCancel cancel1DB "AB1234" "late" 0 = (cancel1DB, some .cancellationWindowClosed) := by
  have hfil1 : cancel1DB.bookings.filter (fun x =>
      decide (x.pnr = "AB1234") && decide (x.booking_status = .CONFIRMED)) =
      [⟨"AB1234", 1, "A", 30, "9999999999", "", "1A", .CONFIRMED, 100, .SUCCESS, ""⟩] := by
    norm_num [cancel1DB, List.filter]
  have hfind1 : cancel1DB.flights.find? (fun g => g.id =
      (⟨"AB1234", 1, "A", 30, "9999999999", "", "1A", .CONFIRMED, 100, .SUCCESS,
        ""⟩ : Booking).flightId) =
      some ⟨1, "F1", 1, 2, 3600, 20000, 100, 10, 4, .SCHEDULED⟩ := by
    norm_num [cancel1DB, List.find?]
  have h1 := claim_C6.1 cancel1DB "AB1234" "late" 0
    ⟨"AB1234", 1, "A", 30, "9999999999", "", "1A", .CONFIRMED, 100, .SUCCESS, ""⟩
    ⟨1, "F1", 1, 2, 3600, 20000, 100, 10, 4, .SCHEDULED⟩ hfil1 hfind1 (by norm_num)
  have hfil3 : cancel3DB.bookings.filter (fun x =>
      decide (x.pnr = "AB1234") && decide (x.booking_status = .CONFIRMED)) =
      [⟨"AB1234", 1, "A", 30, "9999999999", "", "1A", .CONFIRMED, 100, .SUCCESS, ""⟩] := by
    norm_num [cancel3DB, List.filter]
  have hfind3 : cancel3DB.flights.find? (fun g => g.id =
      (⟨"AB1234", 1, "A", 30, "9999999999", "", "1A", .CONFIRMED, 100, .SUCCESS,
        ""⟩ : Booking).flightId) =
      some ⟨1, "F1", 1, 2, 10800, 20000, 100, 10, 4, .SCHEDULED⟩ := by
    norm_num [cancel3DB, List.find?]
  have h3 := claim_C6.2.2.1 cancel3DB "AB1234" "ok" 0
    ⟨"AB1234", 1, "A", 30, "9999999999", "", "1A", .CONFIRMED, 100, .SUCCESS, ""⟩
    ⟨1, "F1", 1, 2, 10800, 20000, 100, 10, 4, .SCHEDULED⟩ hfil3 hfind3 (by norm_num)
    (by norm_num [Flight.full_clean_ok]) (by norm_num [cancel3DB, List.filter, List.getLast?])
  have h4 := claim_C6.2.2.2.1 exDB0 "ZZ0000" "none" 0 (by simp [exDB0])
  exact ⟨h1, h3, h4, claim_C6.2.2.2.2 cancel1DB "AB1234" "late" 0 _ h1⟩

end FlightBooking
namespace FlightBooking

/-- Evaluation: reading the fixture booking returns the state with one appended
FareHistory row. -/
theorem eval_read :
    (get_booking_details exDb1 "QQ9999" .LOW 0).map Prod.snd = .ok exDb1Read := by
  unfold get_booking_details exDb1
  norm_num [List.filter, List.find?, calculate_dynamic_fare, calculate_seat_factor,
    calculate_time_factor, demandFactor, pyRound, roundHalfEvenInt, Flight.occupancy_rate,
    Int.floor_eq_iff, Except.map, exDb1Read, exDb1, exBk]

/-- Claim C9 (amended): get_booking_details leaves the bookings, flights,
transactions and booking history unchanged, but it is not read-only: through
the pricing call (save_history defaults to true) it appends exactly one
FareHistory row to the persisted state. -/
theorem claim_C9 (db : DB) (pnr : String) (dem : DemandLevel) (now : ℚ) (db2 : DB)
    (h : (get_booking_details db pnr dem now).map Prod.snd = .ok db2) :
    db2.flights = db.flights ∧ db2.bookings = db.bookings ∧
    db2.transactions = db.transactions ∧ db2.history = db.history ∧
    db.fare_history <+: db2.fare_history ∧
    db2.fare_history.length = db.fare_history.length + 1 := by
  cases hg : get_booking_details db pnr dem now with
  | error e =>
    rw [hg] at h
    simp [Except.map] at h
  | ok pr =>
    obtain ⟨d, dbr⟩ := pr
    rw [hg] at h
    simp only [Except.map] at h
    have hdb2 : dbr = db2 := by simpa using h
    subst hdb2
    unfold get_booking_details at hg
    split at hg
    · simp at hg
    · rename_i b hfil
      split at hg
      · simp at hg
      rename_i flight hfind
      split at hg
      · simp at hg
      rename_i quote fareRec hq
      rw [Except.ok.injEq, Prod.mk.injEq] at hg
      obtain ⟨hd, hdbr⟩ := hg
      rw [← hdbr]
      exact ⟨rfl, rfl, rfl, rfl, List.prefix_append _ _, by simp⟩
    · simp at hg

/-- Counterexample for claim C9: on the fixture state, get_booking_details
does mutate persisted state: the returned committed state differs from the
input state by the appended FareHistory row. -/
theorem claim_C9_counterexample :
    (get_booking_details exDb1 "QQ9999" .LOW 0).map Prod.snd = .ok exDb1Read ∧
    exDb1Read ≠ exDb1 := by
  refine ⟨eval_read, ?_⟩
  intro hcontra
  have hfh := congrArg DB.fare_history hcontra
  simp [exDb1Read, exDb1] at hfh

/-- Witness for claim C9 on the fixtures. -/
theorem claim_C9_witness :
    exDb1Read.flights = exDb1.flights ∧ exDb1Read.bookings = exDb1.bookings ∧
    exDb1Read.transactions = exDb1.transactions ∧ exDb1Read.history = exDb1.history ∧
    exDb1.fare_history <+: exDb1Read.fare_history ∧
    exDb1Read.fare_history.length = exDb1.fare_history.length + 1 :=
  claim_C9 exDb1 "QQ9999" .LOW 0 exDb1Read eval_read

end FlightBooking
